import Mathlib

/-!
Verification development for the reference-guided conditioning module
(`adv_control/control_reference.py`).  The Python data model and the
bank/state-machine logic are shallowly embedded: floats become rationals
(reals where a square root is required), tensors are modelled by a single
rational per captured activation (bank mechanics never inspect tensor
internals), Python exceptions become `Except Unit`, and the mutable
per-layer banks plus the monkey-patched global dispatch function become an
explicit `UNetState` record threaded through the forward interceptor.
-/

set_option autoImplicit false

namespace ControlRef

/-- Embedding of the `MachineState` string enum. -/
inductive MachineState where
  | WRITE
  | READ
  | STYLEALIGN
  | OFF
deriving DecidableEq, Inhabited

/-- Embedding of the `ReferenceType` string enum. -/
inductive ReferenceType where
  | ATTN
  | ADAIN
  | ATTN_ADAIN
  | STYLE_ALIGN
deriving DecidableEq, Inhabited

/-- `ReferenceType.is_attn`: membership in `_LIST_ATTN = [ATTN, ATTN_ADAIN]`. -/
def ReferenceType.is_attn : ReferenceType → Bool
  | .ATTN => true
  | .ATTN_ADAIN => true
  | _ => false

/-- `ReferenceType.is_adain`: membership in `_LIST_ADAIN = [ADAIN, ATTN_ADAIN]`. -/
def ReferenceType.is_adain : ReferenceType → Bool
  | .ADAIN => true
  | .ATTN_ADAIN => true
  | _ => false

/-- Python `math.isclose(a, b)` with the default tolerances
`rel_tol = 1e-9`, `abs_tol = 0.0`, i.e.
`|a-b| <= max(rel_tol * max(|a|,|b|), abs_tol) = (1/10^9) * max(|a|,|b|)`.
Stated with the (positive) denominators cleared so that the kernel can
evaluate it; `isclose_iff` below certifies that this is exactly the
`math.isclose` inequality. -/
def isclose (a b : ℚ) : Bool :=
  1000000000 * (a.num * (b.den : Int) - b.num * (a.den : Int)).natAbs ≤
    max (a.num.natAbs * b.den) (b.num.natAbs * a.den)

/-- Embedding of `ReferenceOptions.__init__`; fields in assignment order.
`original_*_style_fidelity` keeps the constructor argument, the derived
(current) fidelity starts equal to it. -/
structure ReferenceOptions where
  reference_type : ReferenceType
  original_attn_style_fidelity : ℚ
  attn_style_fidelity : ℚ
  attn_ref_weight : ℚ
  attn_strength : ℚ
  original_adain_style_fidelity : ℚ
  adain_style_fidelity : ℚ
  adain_ref_weight : ℚ
  adain_strength : ℚ
  ref_with_other_cns : Bool
deriving DecidableEq, Inhabited

/-- Embedding of `ReferenceAdvanced`.  Only the fields the banked
state machine consults are kept.  `base_should_run` models the decision
of the `AdvancedControlBase` scheduling collaborator (the
`super().should_run()` call); the three `should_apply_*` flags are the
per-step derived flags set in `__init__` / `get_control_advanced`. -/
structure ReferenceAdvanced where
  ref_opts : ReferenceOptions
  order : Int
  should_apply_attn_effective_strength : Bool
  should_apply_adain_effective_strength : Bool
  should_apply_effective_masks : Bool
  is_context_ref : Bool
  base_should_run : Bool
deriving DecidableEq, Inhabited

/-- State of a fresh `ReferenceAdvanced(ref_opts, ...)` straight out of
`__init__`: `order = 0`, per-step flags `False`, `is_context_ref = False`. -/
def ReferenceAdvanced.fresh (opts : ReferenceOptions) (base : Bool) : ReferenceAdvanced :=
  { ref_opts := opts
    order := 0
    should_apply_attn_effective_strength := false
    should_apply_adain_effective_strength := false
    should_apply_effective_masks := false
    is_context_ref := false
    base_should_run := base }

/-- Embedding of `ReferenceAdvanced.should_run`. -/
def ReferenceAdvanced.should_run (s : ReferenceAdvanced) : Bool :=
  if !s.base_should_run then
    false
  else
    let attn_run :=
      if s.ref_opts.reference_type.is_attn then
        !(isclose s.ref_opts.attn_ref_weight 0 || isclose s.ref_opts.attn_strength 0)
      else false
    let adain_run :=
      if s.ref_opts.reference_type.is_adain then
        !(isclose s.ref_opts.adain_ref_weight 0 || isclose s.ref_opts.adain_strength 0)
      else false
    attn_run || adain_run

/-- Embedding of `ReferenceAdvanced.any_attn_strength_to_apply`. -/
def ReferenceAdvanced.any_attn_strength_to_apply (s : ReferenceAdvanced) : Bool :=
  s.should_apply_attn_effective_strength || s.should_apply_effective_masks

/-- Embedding of `ReferenceAdvanced.any_adain_strength_to_apply`. -/
def ReferenceAdvanced.any_adain_strength_to_apply (s : ReferenceAdvanced) : Bool :=
  s.should_apply_adain_effective_strength || s.should_apply_effective_masks

/-- Embedding of `BankStylesBasicTransformerBlock`: the per-attention-layer
bank.  `bank`/`style_cfgs`/`cn_idx` are the RefCN-origin ("own")
sequences, the `c_`-prefixed ones are the ContextRef-origin sequences.
A captured feature tensor is modelled by one rational. -/
structure BankStylesBasicTransformerBlock where
  bank : List ℚ
  style_cfgs : List ℚ
  cn_idx : List Int
  c_bank : List ℚ
  c_style_cfgs : List ℚ
  c_cn_idx : List Int
deriving DecidableEq, Inhabited

namespace BankStylesBasicTransformerBlock

/-- Freshly constructed bank: all six sequences empty. -/
def empty : BankStylesBasicTransformerBlock := ⟨[], [], [], [], [], []⟩

/-- `get_bank(ignore_contextref)`. -/
def get_bank (b : BankStylesBasicTransformerBlock) (ignore_contextref : Bool) : List ℚ :=
  if ignore_contextref then b.bank else b.bank ++ b.c_bank

/-- `get_avg_style_fidelity(ignore_contextref)` (rational division; only
invoked on non-empty banks by the read paths, matching the source). -/
def get_avg_style_fidelity (b : BankStylesBasicTransformerBlock) (ignore_contextref : Bool) : ℚ :=
  if ignore_contextref then b.style_cfgs.sum / b.style_cfgs.length
  else (b.style_cfgs ++ b.c_style_cfgs).sum / (b.style_cfgs ++ b.c_style_cfgs).length

/-- `get_cn_idxs(ignore_contxtref)`. -/
def get_cn_idxs (b : BankStylesBasicTransformerBlock) (ignore_contextref : Bool) : List Int :=
  if ignore_contextref then b.cn_idx else b.cn_idx ++ b.c_cn_idx

/-- `clean_ref`: clears only the own (RefCN-origin) sequences. -/
def clean_ref (b : BankStylesBasicTransformerBlock) : BankStylesBasicTransformerBlock :=
  { b with bank := [], style_cfgs := [], cn_idx := [] }

/-- `clean_contextref`: clears only the ContextRef-origin sequences. -/
def clean_contextref (b : BankStylesBasicTransformerBlock) : BankStylesBasicTransformerBlock :=
  { b with c_bank := [], c_style_cfgs := [], c_cn_idx := [] }

/-- `clean_all`. -/
def clean_all (b : BankStylesBasicTransformerBlock) : BankStylesBasicTransformerBlock :=
  b.clean_ref.clean_contextref

end BankStylesBasicTransformerBlock

/-- Embedding of `BankStylesTimestepEmbedSequential`: the per-normalization
block bank, holding (variance, mean) statistic pairs. -/
structure BankStylesTimestepEmbedSequential where
  var_bank : List ℚ
  mean_bank : List ℚ
  style_cfgs : List ℚ
  cn_idx : List Int
  c_var_bank : List ℚ
  c_mean_bank : List ℚ
  c_style_cfgs : List ℚ
  c_cn_idx : List Int
deriving DecidableEq, Inhabited

namespace BankStylesTimestepEmbedSequential

/-- Freshly constructed bank: all eight sequences empty. -/
def empty : BankStylesTimestepEmbedSequential := ⟨[], [], [], [], [], [], [], []⟩

/-- `get_var_bank(ignore_contextref)`. -/
def get_var_bank (b : BankStylesTimestepEmbedSequential) (ignore_contextref : Bool) : List ℚ :=
  if ignore_contextref then b.var_bank else b.var_bank ++ b.c_var_bank

/-- `get_mean_bank(ignore_contextref)`. -/
def get_mean_bank (b : BankStylesTimestepEmbedSequential) (ignore_contextref : Bool) : List ℚ :=
  if ignore_contextref then b.mean_bank else b.mean_bank ++ b.c_mean_bank

/-- `get_style_cfgs(ignore_contextref)`. -/
def get_style_cfgs (b : BankStylesTimestepEmbedSequential) (ignore_contextref : Bool) : List ℚ :=
  if ignore_contextref then b.style_cfgs else b.style_cfgs ++ b.c_style_cfgs

/-- `get_cn_idx(ignore_contextref)`. -/
def get_cn_idx (b : BankStylesTimestepEmbedSequential) (ignore_contextref : Bool) : List Int :=
  if ignore_contextref then b.cn_idx else b.cn_idx ++ b.c_cn_idx

/-- `clean_ref`: clears only the own (RefCN-origin) sequences. -/
def clean_ref (b : BankStylesTimestepEmbedSequential) : BankStylesTimestepEmbedSequential :=
  { b with var_bank := [], mean_bank := [], style_cfgs := [], cn_idx := [] }

/-- `clean_contextref`: clears only the ContextRef-origin sequences. -/
def clean_contextref (b : BankStylesTimestepEmbedSequential) : BankStylesTimestepEmbedSequential :=
  { b with c_var_bank := [], c_mean_bank := [], c_style_cfgs := [], c_cn_idx := [] }

/-- `clean_all`. -/
def clean_all (b : BankStylesTimestepEmbedSequential) : BankStylesTimestepEmbedSequential :=
  b.clean_ref.clean_contextref

end BankStylesTimestepEmbedSequential

/-- The mutable state the patch layer owns: the banks of every patched
attention layer, the banks of every patched normalization layer, and
whether `openaimodel.forward_timestep_embed` currently holds the
instrumented variant instead of the original (the global dispatch swap). -/
structure UNetState where
  attn_banks : List BankStylesBasicTransformerBlock
  gn_banks : List BankStylesTimestepEmbedSequential
  dispatch_substituted : Bool
deriving DecidableEq, Inhabited

namespace ReferenceInjections

/-- Embedding of `ReferenceInjections.clean_ref_module_mem`: clears the
own-origin sequences of every registered attention and normalization
holder (the per-module `try/except pass` never fires in the model because
`clean_ref` is total). -/
def clean_ref_module_mem (st : UNetState) : UNetState :=
  { st with
    attn_banks := st.attn_banks.map BankStylesBasicTransformerBlock.clean_ref
    gn_banks := st.gn_banks.map BankStylesTimestepEmbedSequential.clean_ref }

/-- Embedding of `ReferenceInjections.clean_contextref_module_mem`. -/
def clean_contextref_module_mem (st : UNetState) : UNetState :=
  { st with
    attn_banks := st.attn_banks.map BankStylesBasicTransformerBlock.clean_contextref
    gn_banks := st.gn_banks.map BankStylesTimestepEmbedSequential.clean_contextref }

/-- Embedding of `ReferenceInjections.clean_all_module_mem`. -/
def clean_all_module_mem (st : UNetState) : UNetState :=
  { st with
    attn_banks := st.attn_banks.map BankStylesBasicTransformerBlock.clean_all
    gn_banks := st.gn_banks.map BankStylesTimestepEmbedSequential.clean_all }

end ReferenceInjections

/-- The `transformer_options` side-channel dictionary, with one typed field
per key this module reads or writes. -/
structure TransformerOptions where
  ref_control_list_all : List ReferenceAdvanced
  contextref_control_list_all : List ReferenceAdvanced
  contextref_attn_machine_state : MachineState
  contextref_adain_machine_state : MachineState
  cond_or_uncond : List Nat
  ref_uncond_idxs : List Nat
  ref_cond_idxs : List Nat
  ref_read_attn_control_list : List ReferenceAdvanced
  ref_write_attn_control_list : List ReferenceAdvanced
  ref_read_adain_control_list : List ReferenceAdvanced
  ref_write_adain_control_list : List ReferenceAdvanced
deriving DecidableEq, Inhabited

/-- A `transformer_options` dictionary with no reference keys populated
(machine states default to OFF, every list absent/empty). -/
def TransformerOptions.empty : TransformerOptions :=
  ⟨[], [], .OFF, .OFF, [], [], [], [], [], [], []⟩

/-- Embedding of `handle_context_ref_setup(transformer_options)`: sets both
ContextRef machine-state keys to OFF and installs a fresh single-element
ContextRef control list.  `base` feeds the scheduling-collaborator input of
the created unit (not part of the Python constructor call).  Returns the
updated dictionary together with the returned list. -/
def handle_context_ref_setup (base : Bool) (topts : TransformerOptions) :
    TransformerOptions × List ReferenceAdvanced :=
  let topts1 := { topts with
    contextref_attn_machine_state := MachineState.OFF
    contextref_adain_machine_state := MachineState.OFF }
  let opts : ReferenceOptions :=
    { reference_type := ReferenceType.ATTN
      original_attn_style_fidelity := 1
      attn_style_fidelity := 1
      attn_ref_weight := 1
      attn_strength := 1
      original_adain_style_fidelity := 0
      adain_style_fidelity := 0
      adain_ref_weight := 0
      adain_strength := 1
      ref_with_other_cns := false }
  let cref0 := ReferenceAdvanced.fresh opts base
  let cref := { cref0 with order := -1 }
  let context_ref_list := [cref]
  ({ topts1 with contextref_control_list_all := context_ref_list }, context_ref_list)

/-- Embedding of `ref_noise_latents(latents, sigma, noise)` with the noise
tensor supplied explicitly (the `noise is None` branch samples fresh
standard-normal noise of the same shape, which the formula then consumes
identically).  Tensors are element lists over ℝ, sigma a scalar; the
Python `** 0.5` on the nonnegative quantities is `Real.sqrt`. -/
noncomputable def ref_noise_latents (latents : List ℝ) (sigma : ℝ) (noise : List ℝ) : List ℝ :=
  let alpha_cumprod : ℝ := 1 / (sigma * sigma + 1)
  let sqrt_alpha_prod := Real.sqrt alpha_cumprod
  let sqrt_one_minus_alpha_prod := Real.sqrt (1 - alpha_cumprod)
  List.zipWith (fun l n => sqrt_alpha_prod * l + sqrt_one_minus_alpha_prod * n) latents noise

/-! ### Attention injection (`_forward_inject_BasicTransformerBlock`) — WRITE phase -/

/-- Loop body of the attention WRITE phase (source lines 861-876): for each
unit in the write list whose `attn_ref_weight` strictly exceeds the layer's
`attn_weight` threshold, append the cached post-norm tensor `n` to the
context sub-bank when `refcn.is_context_ref` (setting
`ignore_contextref_read`), else to the own sub-bank; the fidelity and order
appended come from `ref_write_cns[0]` (`w0`), exactly as in the source. -/
def attnWriteLoop (w0 : ReferenceAdvanced) (attn_weight n : ℚ) :
    List ReferenceAdvanced → BankStylesBasicTransformerBlock × Bool →
    BankStylesBasicTransformerBlock × Bool
  | [], acc => acc
  | refcn :: rest, (bs, ign) =>
    if refcn.ref_opts.attn_ref_weight > attn_weight then
      if refcn.is_context_ref then
        attnWriteLoop w0 attn_weight n rest
          ({ bs with
              c_bank := bs.c_bank ++ [n]
              c_style_cfgs := bs.c_style_cfgs ++ [w0.ref_opts.attn_style_fidelity]
              c_cn_idx := bs.c_cn_idx ++ [w0.order] }, true)
      else
        attnWriteLoop w0 attn_weight n rest
          ({ bs with
              bank := bs.bank ++ [n]
              style_cfgs := bs.style_cfgs ++ [w0.ref_opts.attn_style_fidelity]
              cn_idx := bs.cn_idx ++ [w0.order] }, ign)
    else
      attnWriteLoop w0 attn_weight n rest (bs, ign)

/-- Attention WRITE phase over the whole write list; returns the updated
bank and the `ignore_contextref_read` flag (initially false). -/
def attnWrite (ref_write_cns : List ReferenceAdvanced) (attn_weight n : ℚ)
    (bs : BankStylesBasicTransformerBlock) : BankStylesBasicTransformerBlock × Bool :=
  match ref_write_cns with
  | [] => (bs, false)
  | w0 :: _ => attnWriteLoop w0 attn_weight n ref_write_cns (bs, false)

/-! ### Normalization injection (`forward_timestep_embed_ref_inject_factory`) — WRITE phase -/

/-- Loop body of the ADAIN WRITE phase (source lines 1045-1058): units whose
`adain_ref_weight` strictly exceeds the layer's `gn_weight` append the
(var, mean) statistics together with **their own** fidelity and order,
routed to the context sub-bank when `refcn.is_context_ref`. -/
def adainWriteLoop (gn_weight var mean : ℚ) :
    List ReferenceAdvanced → BankStylesTimestepEmbedSequential × Bool →
    BankStylesTimestepEmbedSequential × Bool
  | [], acc => acc
  | refcn :: rest, (bs, ign) =>
    if refcn.ref_opts.adain_ref_weight > gn_weight then
      if refcn.is_context_ref then
        adainWriteLoop gn_weight var mean rest
          ({ bs with
              c_var_bank := bs.c_var_bank ++ [var]
              c_mean_bank := bs.c_mean_bank ++ [mean]
              c_style_cfgs := bs.c_style_cfgs ++ [refcn.ref_opts.adain_style_fidelity]
              c_cn_idx := bs.c_cn_idx ++ [refcn.order] }, true)
      else
        adainWriteLoop gn_weight var mean rest
          ({ bs with
              var_bank := bs.var_bank ++ [var]
              mean_bank := bs.mean_bank ++ [mean]
              style_cfgs := bs.style_cfgs ++ [refcn.ref_opts.adain_style_fidelity]
              cn_idx := bs.cn_idx ++ [refcn.order] }, ign)
    else
      adainWriteLoop gn_weight var mean rest (bs, ign)

/-- ADAIN WRITE phase over the whole write list. -/
def adainWrite (ref_write_cns : List ReferenceAdvanced) (gn_weight var mean : ℚ)
    (bs : BankStylesTimestepEmbedSequential) : BankStylesTimestepEmbedSequential × Bool :=
  adainWriteLoop gn_weight var mean ref_write_cns (bs, false)

/-! ### READ-phase order matching (shared by both injections) -/

/-- Inner scan of the READ loops: walk the read list from index `i`
upward and return the first index whose unit's `order` equals `order`
(`for i in range(cn_idx, len(ref_read_cns)): if ... cn_idx = i; break`). -/
def findOrderFromAux (order : Int) : List ReferenceAdvanced → Nat → Option Nat
  | [], _ => none
  | r :: rest, i => if r.order = order then some i else findOrderFromAux order rest (i + 1)

/-- Forward scan from `start`: first matching index at or after `start`,
`none` when the loop falls through (Python then leaves `cn_idx` unchanged). -/
def findOrderFrom (read : List ReferenceAdvanced) (order : Int) (start : Nat) : Option Nat :=
  findOrderFromAux order (read.drop start) start

/-- The READ-phase pairing loop common to lines 943-950 (attention) and
1067-1077 (normalization): for each stored bank order, scan forward from
the last match position; `assert order == ref_read_cns[cn_idx].order`
becomes `Except.error ()` (the fatal assertion).  On success returns the
read-list index paired with each bank entry. -/
def pairBank (read : List ReferenceAdvanced) : List Int → Nat → Except Unit (List Nat)
  | [], _ => Except.ok []
  | order :: rest, cn_idx =>
    let cn_idx1 := (findOrderFrom read order cn_idx).getD cn_idx
    match read[cn_idx1]? with
    | none => Except.error ()
    | some r =>
      if r.order = order then
        (pairBank read rest cn_idx1).map (fun idxs => cn_idx1 :: idxs)
      else
        Except.error ()

/-- Bank-lifecycle part of the attention READ phase (lines 937-965): when
the read list and the visible bank (`get_bank ignore_contextref_read`) are
both non-empty, the entries are paired against the read list (fatal
assertion on mismatch), consumed, and the own sub-bank is cleared
(`bank_styles.clean_ref()`); otherwise the bank is untouched and nothing is
consumed.  Returns the post-read bank and the consumed entries. -/
def attnRead (ref_read_cns : List ReferenceAdvanced) (ignore_contextref_read : Bool)
    (bs : BankStylesBasicTransformerBlock) :
    Except Unit (BankStylesBasicTransformerBlock × List ℚ) :=
  if ref_read_cns ≠ [] ∧ bs.get_bank ignore_contextref_read ≠ [] then
    match pairBank ref_read_cns (bs.get_cn_idxs ignore_contextref_read) 0 with
    | Except.error e => Except.error e
    | Except.ok _ => Except.ok (bs.clean_ref, bs.get_bank ignore_contextref_read)
  else
    Except.ok (bs, [])

/-! ### READ-phase fidelity combination (shared shape of lines 958-964 and 1090-1093) -/

/-- Fancy-index assignment `n_c[uc_idx_mask] = repl[uc_idx_mask]`: rows whose
index is in the mask are taken from `repl`, the others kept from `base`. -/
def applyUcMask (mask : List Nat) (base repl : List ℚ) : List ℚ :=
  (List.range base.length).map
    (fun i => if i ∈ mask then repl.getD i (base.getD i 0) else base.getD i 0)

/-- Final READ combination used by both injections: `n_c` starts as a clone
of the blended branch `n_uc`; only when the uncond index mask is non-empty
and the fidelity is not `math.isclose` to zero are the uncond rows replaced
by the per-sample pure branch `repl`; the result is
`style_fidelity * n_c + (1 - style_fidelity) * n_uc`, row-wise. -/
def styleFidelityCombine (style_fidelity : ℚ) (uc_idx_mask : List Nat)
    (n_uc repl : List ℚ) : List ℚ :=
  let n_c := if uc_idx_mask ≠ [] ∧ isclose style_fidelity 0 = false
    then applyUcMask uc_idx_mask n_uc repl else n_uc
  List.zipWith (fun c uc => style_fidelity * c + (1 - style_fidelity) * uc) n_c n_uc

/-! ### Forward interceptor (`factory_forward_inject_UNetModel`) -/

/-- One call into `reference_injections.diffusion_model_orig_forward`:
reads the per-call lists from `transformer_options` and mutates the banks;
`Except.error` models a Python exception escaping the nested call (the
post-raise bank state is still returned, as mutations persist). -/
def InnerForward (ρ : Type) : Type :=
  TransformerOptions → UNetState → Except Unit ρ × UNetState

/-- Everything one invocation of the injected top-level forward produces:
the returned value (or the propagated exception), the final mutable state,
the `transformer_options` dictionary as last written, and how many times
the wrapped original forward was invoked. -/
structure ForwardResult (ρ : Type) where
  result : Except Unit ρ
  state : UNetState
  topts : TransformerOptions
  forward_calls : Nat

/-- The per-RefCN-unit reference passes (source lines 681-704): for each
unit, install write-lists containing exactly that unit for its applicable
channels and empty read-lists, then run one full forward on the unit's
noised hint; an exception aborts the remaining passes (the `finally` phase
still runs in the caller). -/
def runRefWritePasses {ρ : Type} (inner : InnerForward ρ) :
    List ReferenceAdvanced → TransformerOptions → UNetState → Nat →
    Except Unit Unit × TransformerOptions × UNetState × Nat
  | [], topts, st, calls => (Except.ok (), topts, st, calls)
  | control :: rest, topts, st, calls =>
    let write_attn_list := if control.ref_opts.reference_type.is_attn then [control] else []
    let write_adain_list := if control.ref_opts.reference_type.is_adain then [control] else []
    let topts1 := { topts with
      ref_read_attn_control_list := []
      ref_write_attn_control_list := write_attn_list
      ref_read_adain_control_list := []
      ref_write_adain_control_list := write_adain_list }
    match inner topts1 st with
    | (Except.error e, st1) => (Except.error e, topts1, st1, calls + 1)
    | (Except.ok _, st1) => runRefWritePasses inner rest topts1 st1 (calls + 1)

/-- The guaranteed `finally` phase (source lines 738-742): always clear the
RefCN-origin bank entries; restore the original per-block dispatch function
only when `len(adain_controlnets) > 0` (the RefCN adain list — the source
does not consult the ContextRef adain list here). -/
def finallyCleanup (restore_dispatch : Bool) (st : UNetState) : UNetState :=
  let st1 := ReferenceInjections.clean_ref_module_mem st
  if restore_dispatch then { st1 with dispatch_substituted := false } else st1

/-- Outcome of the `try` block of the injected forward, before the
`finally` phase is applied: the value or exception, the dictionary and
mutable state as the block left them, the number of nested forward calls
made, and whether the `finally` phase will restore the dispatch function
(`len(adain_controlnets) > 0`; false when the block died before the adain
partition was computed, where the source's restore line itself raises on an
unbound local and the dispatch — never substituted — stays put). -/
structure TryOutcome (ρ : Type) where
  result : Except Unit ρ
  topts : TransformerOptions
  state : UNetState
  forward_calls : Nat
  restore_dispatch : Bool

/-- The `try` block of the injected top-level forward (source lines
651-737).  `x_batch` is `x.shape[0]`.  Computes cond/uncond index lists
(raising `ZeroDivisionError` when `cond_or_uncond` is empty), partitions
both filtered unit lists by channel, substitutes the per-block dispatch
function if any adain-capable unit exists (either source), runs one
reference pass per RefCN unit, builds the real pass's read/write lists
(RefCN units on the read lists; ContextRef units routed by the two
ContextRef machine states, with ContextRef banks cleared first when the
ATTN machine state is WRITE or OFF), and runs the real pass. -/
def forwardTryBody {ρ : Type} (inner : InnerForward ρ) (x_batch : Nat)
    (topts : TransformerOptions) (st : UNetState) : TryOutcome ρ :=
  let ref_controlnets := topts.ref_control_list_all.filter (fun z => z.should_run)
  let context_controlnets := topts.contextref_control_list_all.filter (fun z => z.should_run)
  let batched_number := topts.cond_or_uncond.length
  if batched_number = 0 then
    ⟨Except.error (), topts, st, 0, false⟩
  else
    let per_batch := x_batch / batched_number
    let indiv_conds := (topts.cond_or_uncond.map (fun c => List.replicate per_batch c)).flatten
    let topts1 := { topts with
      ref_uncond_idxs := (indiv_conds.enum.filter (fun p => p.2 == 1)).map (fun p => p.1)
      ref_cond_idxs := (indiv_conds.enum.filter (fun p => p.2 == 0)).map (fun p => p.1) }
    let attn_controlnets := ref_controlnets.filter (fun c => c.ref_opts.reference_type.is_attn)
    let adain_controlnets := ref_controlnets.filter (fun c => c.ref_opts.reference_type.is_adain)
    let context_attn_controlnets :=
      context_controlnets.filter (fun c => c.ref_opts.reference_type.is_attn)
    let context_adain_controlnets :=
      context_controlnets.filter (fun c => c.ref_opts.reference_type.is_adain)
    let st1 := if !adain_controlnets.isEmpty || !context_adain_controlnets.isEmpty
      then { st with dispatch_substituted := true } else st
    match runRefWritePasses inner ref_controlnets topts1 st1 0 with
    | (Except.error e, topts2, st2, calls) =>
      ⟨Except.error e, topts2, st2, calls, !adain_controlnets.isEmpty⟩
    | (Except.ok _, topts2, st2, calls) =>
      let ctx : UNetState × List ReferenceAdvanced × List ReferenceAdvanced :=
        if context_controlnets.isEmpty then (st2, [], [])
        else
          let st3 := if topts.contextref_attn_machine_state = MachineState.WRITE ∨
              topts.contextref_attn_machine_state = MachineState.OFF
            then ReferenceInjections.clean_contextref_module_mem st2 else st2
          let extra_write_attn :=
            (if topts.contextref_attn_machine_state = MachineState.WRITE
              then context_attn_controlnets else []) ++
            (if topts.contextref_adain_machine_state = MachineState.WRITE
              then context_adain_controlnets else [])
          let extra_read_attn :=
            (if topts.contextref_attn_machine_state = MachineState.READ
              then context_attn_controlnets else []) ++
            (if topts.contextref_adain_machine_state = MachineState.READ
              then context_adain_controlnets else [])
          (st3, extra_write_attn, extra_read_attn)
      let topts3 := { topts2 with
        ref_read_attn_control_list := attn_controlnets ++ ctx.2.2
        ref_write_attn_control_list := ctx.2.1
        ref_read_adain_control_list := adain_controlnets
        ref_write_adain_control_list := [] }
      let r := inner topts3 ctx.1
      ⟨r.1, topts3, r.2, calls + 1, !adain_controlnets.isEmpty⟩

/-- Embedding of the injected top-level forward produced by
`factory_forward_inject_UNetModel`.  Filters both unit lists through
`should_run`; when both are empty it delegates to the wrapped original
forward unchanged (zero-overhead path); otherwise it runs the `try` block
and then, on every exit path, the guaranteed `finally` phase (clear all
RefCN-origin bank entries; conditionally restore the dispatch function). -/
def forward_inject_UNetModel {ρ : Type} (inner : InnerForward ρ) (x_batch : Nat)
    (topts : TransformerOptions) (st : UNetState) : ForwardResult ρ :=
  let ref_controlnets := topts.ref_control_list_all.filter (fun z => z.should_run)
  let context_controlnets := topts.contextref_control_list_all.filter (fun z => z.should_run)
  if ref_controlnets.isEmpty ∧ context_controlnets.isEmpty then
    let r := inner topts st
    ⟨r.1, r.2, topts, 1⟩
  else
    let body := forwardTryBody inner x_batch topts st
    ⟨body.result, finallyCleanup body.restore_dispatch body.state, body.topts, body.forward_calls⟩

/-! ### Concrete instantiations used to exercise the embedding -/

/-- An original forward whose nested layers touch nothing and never raise. -/
def trivialInner : InnerForward Unit := fun _ st => (Except.ok (), st)

/-- An original forward consisting of a single patched attention layer with
weight threshold `attn_weight` whose post-norm activation is `n`: it runs
the attention WRITE phase then the attention READ bank lifecycle against
the lists installed in `transformer_options`, and returns the consumed
bank entries. -/
def attnLayerInner (attn_weight n : ℚ) : InnerForward (List ℚ) := fun topts st =>
  match st.attn_banks with
  | [bs] =>
    let w := attnWrite topts.ref_write_attn_control_list attn_weight n bs
    match attnRead topts.ref_read_attn_control_list w.2 w.1 with
    | Except.error e => (Except.error e, { st with attn_banks := [w.1] })
    | Except.ok (bs2, consumed) => (Except.ok consumed, { st with attn_banks := [bs2] })
  | _ => (Except.error (), st)

/-- The single ContextRef unit installed by `handle_context_ref_setup`
(scheduling collaborator saying "run"). -/
def context_cref : ReferenceAdvanced :=
  ((handle_context_ref_setup true TransformerOptions.empty).2).headI

/-- Options record shared by the small concrete units below: attention-only,
weight 1, strength 1, fidelity `fid`. -/
def mkAttnOpts (fid : ℚ) : ReferenceOptions :=
  { reference_type := ReferenceType.ATTN
    original_attn_style_fidelity := fid
    attn_style_fidelity := fid
    attn_ref_weight := 1
    attn_strength := 1
    original_adain_style_fidelity := 0
    adain_style_fidelity := 0
    adain_ref_weight := 0
    adain_strength := 1
    ref_with_other_cns := false }

/-- Adain-only options: weight 1, strength 1, fidelity `fid`. -/
def mkAdainOpts (fid : ℚ) : ReferenceOptions :=
  { reference_type := ReferenceType.ADAIN
    original_attn_style_fidelity := 0
    attn_style_fidelity := 0
    attn_ref_weight := 0
    attn_strength := 1
    original_adain_style_fidelity := fid
    adain_style_fidelity := fid
    adain_ref_weight := 1
    adain_strength := 1
    ref_with_other_cns := false }

/-- A runnable attention-only unit with a chosen order and fidelity. -/
def mkAttnUnit (ord : Int) (fid : ℚ) : ReferenceAdvanced :=
  { ReferenceAdvanced.fresh (mkAttnOpts fid) true with order := ord }

/-- A runnable adain-only ContextRef-listed unit (order -1, fidelity 1). -/
def ctxAdainUnit : ReferenceAdvanced :=
  { ReferenceAdvanced.fresh (mkAdainOpts 1) true with order := -1 }

/-- A state with one patched attention layer (empty bank) and no
normalization layers; dispatch function not substituted. -/
def unetState1 : UNetState :=
  ⟨[BankStylesBasicTransformerBlock.empty], [], false⟩

/-- The ContextRef-only `transformer_options` of the persistence scenario:
one ContextRef unit (as installed by `handle_context_ref_setup`), ATTN
machine state `s`, ADAIN machine state OFF, a one-slot conditional batch. -/
def c6_topts (s : MachineState) : TransformerOptions :=
  { TransformerOptions.empty with
    contextref_control_list_all := [context_cref]
    contextref_attn_machine_state := s
    cond_or_uncond := [0] }

/-- One sampling-step forward call of the persistence scenario: the
interceptor wrapping a single attention layer with weight threshold 0
(below the unit's weight 1, so writes qualify) whose post-norm activation
is `n`. -/
def c6_step (s : MachineState) (n : ℚ) (st : UNetState) : ForwardResult (List ℚ) :=
  forward_inject_UNetModel (attnLayerInner 0 n) 1 (c6_topts s) st

/-- A unit with order 3 (attention-only, weight 1, strength 1, fidelity 1). -/
def unit_order3 : ReferenceAdvanced := mkAttnUnit 3 1

/-- A unit with order 7 (attention-only, weight 1, strength 1, fidelity 0). -/
def unit_order7 : ReferenceAdvanced := mkAttnUnit 7 0

/-- An attention bank whose own entries were written by the order-7 unit
first and the order-3 unit second (write order [7,3]). -/
def bank_written_73 : BankStylesBasicTransformerBlock := ⟨[10, 20], [0, 1], [7, 3], [], [], []⟩

/-- The same two entries written in order [3,7]. -/
def bank_written_37 : BankStylesBasicTransformerBlock := ⟨[20, 10], [1, 0], [3, 7], [], [], []⟩

/-- `transformer_options` with one adain-capable ContextRef-listed unit and
ContextRef ADAIN machine state WRITE (ATTN state OFF). -/
def ctx_adain_write_topts : TransformerOptions :=
  { TransformerOptions.empty with
    contextref_control_list_all := [ctxAdainUnit]
    contextref_attn_machine_state := MachineState.OFF
    contextref_adain_machine_state := MachineState.WRITE
    cond_or_uncond := [0] }

/-- `transformer_options` with one adain-capable ContextRef-listed unit and
ContextRef ADAIN machine state READ (ATTN state OFF); there is no RefCN
unit, so the RefCN adain partition is empty. -/
def ctx_adain_read_topts : TransformerOptions :=
  { TransformerOptions.empty with
    contextref_control_list_all := [ctxAdainUnit]
    contextref_attn_machine_state := MachineState.OFF
    contextref_adain_machine_state := MachineState.READ
    cond_or_uncond := [0] }

/-- `transformer_options` with exactly one runnable RefCN unit. -/
def one_refcn_topts : TransformerOptions :=
  { TransformerOptions.empty with
    ref_control_list_all := [mkAttnUnit 0 1]
    cond_or_uncond := [0] }

/-- A state whose attention and normalization banks all hold stale entries. -/
def dirty_state : UNetState :=
  ⟨[⟨[3], [1], [0], [4], [1], [2]⟩], [⟨[2], [6], [1], [0], [5], [5], [0], [2]⟩], true⟩

/-- The non-ContextRef units of a write list whose `attn_ref_weight`
strictly exceeds the layer threshold — the units whose attention WRITE
lands in the own sub-bank. -/
def attnQualifiesOwn (t : ℚ) (l : List ReferenceAdvanced) : List ReferenceAdvanced :=
  l.filter (fun r => decide (r.ref_opts.attn_ref_weight > t) && !r.is_context_ref)

/-- The ContextRef-flagged units of a write list whose `attn_ref_weight`
strictly exceeds the layer threshold. -/
def attnQualifiesCtx (t : ℚ) (l : List ReferenceAdvanced) : List ReferenceAdvanced :=
  l.filter (fun r => decide (r.ref_opts.attn_ref_weight > t) && r.is_context_ref)

/-- The non-ContextRef units of a write list whose `adain_ref_weight`
strictly exceeds the layer threshold. -/
def adainQualifiesOwn (g : ℚ) (l : List ReferenceAdvanced) : List ReferenceAdvanced :=
  l.filter (fun r => decide (r.ref_opts.adain_ref_weight > g) && !r.is_context_ref)

/-- The ContextRef-flagged units of a write list whose `adain_ref_weight`
strictly exceeds the layer threshold. -/
def adainQualifiesCtx (g : ℚ) (l : List ReferenceAdvanced) : List ReferenceAdvanced :=
  l.filter (fun r => decide (r.ref_opts.adain_ref_weight > g) && r.is_context_ref)

/-- A qualifying writer with order 1 and attention fidelity 1. -/
def writer_order1 : ReferenceAdvanced := mkAttnUnit 1 1

/-- A second qualifying writer with order 2 and attention fidelity 0. -/
def writer_order2 : ReferenceAdvanced := mkAttnUnit 2 0

/-! ## Theorems -/

/-- The cross-multiplied `isclose` is exactly Python
`math.isclose(a, b, rel_tol=1e-9, abs_tol=0.0)`:
`|a-b| <= max(rel_tol * max(|a|, |b|), abs_tol)`. -/
lemma isclose_iff (a b : ℚ) :
    isclose a b = true ↔ |a - b| ≤ max ((1 / 1000000000) * max |a| |b|) 0 := by
  have hC : (0:ℚ) < (a.den : ℚ) := by exact_mod_cast a.pos
  have hD : (0:ℚ) < (b.den : ℚ) := by exact_mod_cast b.pos
  have haC : a * (a.den : ℚ) = (a.num : ℚ) := by rw [Rat.mul_den_eq_num]
  have hbD : b * (b.den : ℚ) = (b.num : ℚ) := by rw [Rat.mul_den_eq_num]
  have hmax0 : max ((1 / 1000000000) * max |a| |b|) 0 = (1 / 1000000000) * max |a| |b| := by
    apply max_eq_left
    positivity
  rw [hmax0, isclose, decide_eq_true_iff]
  rw [show ((1:ℚ) / 1000000000) * max |a| |b| = max |a| |b| / 1000000000 by ring]
  rw [le_div_iff₀ (by norm_num : (0:ℚ) < 1000000000)]
  have key : |a - b| * 1000000000 ≤ max |a| |b| ↔
      |a - b| * 1000000000 * ((a.den:ℚ) * (b.den:ℚ)) ≤ max |a| |b| * ((a.den:ℚ) * (b.den:ℚ)) :=
    (mul_le_mul_right (by positivity)).symm
  have h1 : |a - b| * ((a.den:ℚ) * (b.den:ℚ)) =
      |(a.num:ℚ) * (b.den:ℚ) - (b.num:ℚ) * (a.den:ℚ)| := by
    rw [← abs_of_pos (show (0:ℚ) < (a.den:ℚ) * (b.den:ℚ) by positivity), ← abs_mul]
    congr 1
    have hr : (a - b) * ((a.den:ℚ) * (b.den:ℚ)) =
        (a * (a.den:ℚ)) * (b.den:ℚ) - (b * (b.den:ℚ)) * (a.den:ℚ) := by ring
    rw [hr, haC, hbD]
  have h2 : max |a| |b| * ((a.den:ℚ) * (b.den:ℚ)) =
      max (|(a.num:ℚ)| * (b.den:ℚ)) (|(b.num:ℚ)| * (a.den:ℚ)) := by
    rw [max_mul_of_nonneg _ _ (show (0:ℚ) ≤ (a.den:ℚ) * (b.den:ℚ) by positivity)]
    congr 1
    · have hr : |a| * ((a.den:ℚ) * (b.den:ℚ)) = (|a| * (a.den:ℚ)) * (b.den:ℚ) := by ring
      rw [hr]
      congr 1
      rw [← abs_of_pos hC, ← abs_mul, haC]
    · have hr : |b| * ((a.den:ℚ) * (b.den:ℚ)) = (|b| * (b.den:ℚ)) * (a.den:ℚ) := by ring
      rw [hr]
      congr 1
      rw [← abs_of_pos hD, ← abs_mul, hbD]
  rw [key]
  rw [show |a - b| * 1000000000 * ((a.den:ℚ) * (b.den:ℚ)) =
      |a - b| * ((a.den:ℚ) * (b.den:ℚ)) * 1000000000 by ring]
  rw [h1, h2]
  rw [← Nat.cast_le (α := ℚ)]
  push_cast [Int.cast_natAbs]
  constructor <;> intro h <;> linarith

/-- A zipWith that keeps its first argument is the identity on it when the
second list is at least as long. -/
lemma zipWith_left_id {α β : Type} : ∀ (x : List α) (y : List β),
    x.length ≤ y.length → List.zipWith (fun l _ => l) x y = x
  | [], _, _ => rfl
  | _ :: _, [], h => by simp at h
  | a :: x, b :: y, h => by
    simp only [List.zipWith]
    rw [zipWith_left_id x y (by simpa using h)]

/-- C10: for every transformer_options mapping, handle_context_ref_setup
sets both ContextRef machine-state keys to OFF and installs (and returns) a
single-element control list whose one ReferenceAdvanced has order -1,
reference_type ATTN, attn fidelity/weight/strength all 1.0, adain fidelity
and weight 0.0, and is_context_ref still at its constructor default False. -/
theorem C10_handle_context_ref_setup (base : Bool) (topts : TransformerOptions) :
    (handle_context_ref_setup base topts).1.contextref_attn_machine_state = MachineState.OFF ∧
    (handle_context_ref_setup base topts).1.contextref_adain_machine_state = MachineState.OFF ∧
    (handle_context_ref_setup base topts).1.contextref_control_list_all =
      (handle_context_ref_setup base topts).2 ∧
    (handle_context_ref_setup base topts).2.length = 1 ∧
    ∀ c ∈ (handle_context_ref_setup base topts).2,
      c.order = -1 ∧
      c.ref_opts.reference_type = ReferenceType.ATTN ∧
      c.ref_opts.attn_style_fidelity = 1 ∧
      c.ref_opts.attn_ref_weight = 1 ∧
      c.ref_opts.attn_strength = 1 ∧
      c.ref_opts.adain_style_fidelity = 0 ∧
      c.ref_opts.adain_ref_weight = 0 ∧
      c.is_context_ref = false := by
  refine ⟨rfl, rfl, rfl, rfl, ?_⟩
  intro c hc
  simp only [handle_context_ref_setup, List.mem_singleton] at hc
  subst hc
  exact ⟨rfl, rfl, rfl, rfl, rfl, rfl, rfl, rfl⟩

/-- C7: ref_noise_latents computes exactly alpha_bar = 1/(sigma^2+1) and
returns sqrt(alpha_bar)*latents + sqrt(1-alpha_bar)*noise elementwise; in
particular at sigma = 0 the result is exactly the latents. -/
theorem C7_ref_noise_latents :
    (∀ (latents : List ℝ) (sigma : ℝ) (noise : List ℝ),
        ref_noise_latents latents sigma noise =
          List.zipWith (fun l n =>
              Real.sqrt (1 / (sigma ^ 2 + 1)) * l +
              Real.sqrt (1 - 1 / (sigma ^ 2 + 1)) * n)
            latents noise) ∧
    (∀ (latents noise : List ℝ), noise.length = latents.length →
        ref_noise_latents latents 0 noise = latents) := by
  constructor
  · intro latents sigma noise
    simp only [ref_noise_latents, pow_two]
  · intro latents noise h
    simp only [ref_noise_latents, mul_zero, zero_add, one_div_one, Real.sqrt_one, sub_self,
      Real.sqrt_zero, one_mul, zero_mul, add_zero]
    exact zipWith_left_id latents noise (le_of_eq h.symm)

/-- C7 witness: at sigma = 0 with a concrete shape-matched noise tensor the
noised reference equals the latents exactly. -/
theorem C7_ref_noise_latents_witness :
    ref_noise_latents [2, 3] 0 [5, 7] = [2, 3] :=
  C7_ref_noise_latents.2 [2, 3] [5, 7] rfl

/-- Clearing the RefCN-origin module memory empties the own sub-banks of
every registered attention and normalization holder. -/
lemma clean_ref_module_mem_own_empty (st : UNetState) :
    (∀ b ∈ (ReferenceInjections.clean_ref_module_mem st).attn_banks,
        b.bank = [] ∧ b.style_cfgs = [] ∧ b.cn_idx = []) ∧
    (∀ g ∈ (ReferenceInjections.clean_ref_module_mem st).gn_banks,
        g.var_bank = [] ∧ g.mean_bank = [] ∧ g.style_cfgs = [] ∧ g.cn_idx = []) := by
  constructor
  · intro b hb
    simp only [ReferenceInjections.clean_ref_module_mem, List.mem_map] at hb
    obtain ⟨b0, _, rfl⟩ := hb
    exact ⟨rfl, rfl, rfl⟩
  · intro g hg
    simp only [ReferenceInjections.clean_ref_module_mem, List.mem_map] at hg
    obtain ⟨g0, _, rfl⟩ := hg
    exact ⟨rfl, rfl, rfl, rfl⟩

/-- The `finally` phase always leaves every own sub-bank empty, whatever
state the `try` block produced. -/
lemma finallyCleanup_own_empty (restore : Bool) (st : UNetState) :
    (∀ b ∈ (finallyCleanup restore st).attn_banks,
        b.bank = [] ∧ b.style_cfgs = [] ∧ b.cn_idx = []) ∧
    (∀ g ∈ (finallyCleanup restore st).gn_banks,
        g.var_bank = [] ∧ g.mean_bank = [] ∧ g.style_cfgs = [] ∧ g.cn_idx = []) := by
  have h := clean_ref_module_mem_own_empty st
  unfold finallyCleanup
  split
  · exact h
  · exact h

/-- C2: for every invocation of the injected top-level forward in which at
least one reference unit runs, after the call returns — normally or with a
propagated exception, and whatever the nested forward passes did to the
banks — every RefCN-origin (own) sub-bank of every patched attention and
normalization layer is empty. -/
theorem C2_own_banks_empty_after_forward (ρ : Type) (inner : InnerForward ρ) (x_batch : Nat)
    (topts : TransformerOptions) (st : UNetState)
    (h : ¬((topts.ref_control_list_all.filter (fun z => z.should_run)).isEmpty = true ∧
        (topts.contextref_control_list_all.filter (fun z => z.should_run)).isEmpty = true)) :
    (∀ b ∈ (forward_inject_UNetModel inner x_batch topts st).state.attn_banks,
        b.bank = [] ∧ b.style_cfgs = [] ∧ b.cn_idx = []) ∧
    (∀ g ∈ (forward_inject_UNetModel inner x_batch topts st).state.gn_banks,
        g.var_bank = [] ∧ g.mean_bank = [] ∧ g.style_cfgs = [] ∧ g.cn_idx = []) := by
  simp only [forward_inject_UNetModel]
  split
  · exact absurd ‹_› h
  · exact finallyCleanup_own_empty _ _

/-- C2 witness: a concrete call with one runnable RefCN unit on a state
whose banks all hold stale entries ends with empty own sub-banks. -/
theorem C2_witness :
    (∀ b ∈ (forward_inject_UNetModel trivialInner 1 one_refcn_topts dirty_state).state.attn_banks,
        b.bank = [] ∧ b.style_cfgs = [] ∧ b.cn_idx = []) ∧
    (∀ g ∈ (forward_inject_UNetModel trivialInner 1 one_refcn_topts dirty_state).state.gn_banks,
        g.var_bank = [] ∧ g.mean_bank = [] ∧ g.style_cfgs = [] ∧ g.cn_idx = []) :=
  C2_own_banks_empty_after_forward Unit trivialInner 1 one_refcn_topts dirty_state (by decide)

/-- When the nested forward never raises, the RefCN reference-pass loop
succeeds and performs exactly one nested forward call per RefCN unit. -/
lemma runRefWritePasses_spec {ρ : Type} (inner : InnerForward ρ)
    (hok : ∀ t s, ∃ v s1, inner t s = (Except.ok v, s1)) :
    ∀ (l : List ReferenceAdvanced) (topts : TransformerOptions) (st : UNetState) (c : Nat),
      (runRefWritePasses inner l topts st c).1 = Except.ok () ∧
      (runRefWritePasses inner l topts st c).2.2.2 = c + l.length := by
  intro l
  induction l with
  | nil => intro topts st c; exact ⟨rfl, rfl⟩
  | cons a l ih =>
    intro topts st c
    simp only [runRefWritePasses]
    obtain ⟨v, s1, he⟩ := hok { topts with
      ref_read_attn_control_list := []
      ref_write_attn_control_list := if a.ref_opts.reference_type.is_attn then [a] else []
      ref_read_adain_control_list := []
      ref_write_adain_control_list := if a.ref_opts.reference_type.is_adain then [a] else [] } st
    rw [he]
    refine ⟨(ih _ s1 (c+1)).1, ?_⟩
    rw [(ih _ s1 (c+1)).2]
    simp only [List.length_cons]
    omega

/-- C8: should_run returns false when the base scheduling collaborator says
not to run; otherwise it returns true iff some enabled channel has both its
ref_weight and its strength not `math.isclose` to zero (`isclose_iff`
certifies the tolerance); a unit failing this is dropped by the
interceptor's filter, and (exceptions aside) the number of nested forward
calls is exactly one real pass plus one reference pass per surviving RefCN
unit, so an excluded unit contributes zero extra forward passes. -/
theorem C8_should_run_gating :
    (∀ r : ReferenceAdvanced,
      r.should_run = true ↔
        (r.base_should_run = true ∧
          ((r.ref_opts.reference_type.is_attn = true ∧
              isclose r.ref_opts.attn_ref_weight 0 = false ∧
              isclose r.ref_opts.attn_strength 0 = false) ∨
           (r.ref_opts.reference_type.is_adain = true ∧
              isclose r.ref_opts.adain_ref_weight 0 = false ∧
              isclose r.ref_opts.adain_strength 0 = false)))) ∧
    (∀ (ρ : Type) (inner : InnerForward ρ) (x_batch : Nat)
        (topts : TransformerOptions) (st : UNetState),
      (∀ t s, ∃ v s1, inner t s = (Except.ok v, s1)) →
      topts.cond_or_uncond ≠ [] →
      (forward_inject_UNetModel inner x_batch topts st).forward_calls =
        1 + (topts.ref_control_list_all.filter (fun z => z.should_run)).length) ∧
    (∀ (u : ReferenceAdvanced) (rest : List ReferenceAdvanced),
      u.should_run = false →
      (u :: rest).filter (fun z => z.should_run) = rest.filter (fun z => z.should_run)) := by
  refine ⟨?_, ?_, ?_⟩
  · intro r
    unfold ReferenceAdvanced.should_run
    cases hb : r.base_should_run <;>
      cases ha : r.ref_opts.reference_type.is_attn <;>
        cases hd : r.ref_opts.reference_type.is_adain <;>
          simp [hb, ha, hd, Bool.not_eq_true', Bool.or_eq_false_iff]
  · intro ρ inner x_batch topts st hok hne
    simp only [forward_inject_UNetModel]
    split
    · rename_i hcond
      have h0 : (topts.ref_control_list_all.filter (fun z => z.should_run)) = [] :=
        List.isEmpty_iff.mp hcond.1
      simp [h0]
    · simp only [forwardTryBody]
      split
      · rename_i hz
        exact absurd (List.length_eq_zero.mp hz) hne
      · split
        · rename_i e topts2 st2 calls heq
          have h3 := congrArg (fun q => q.1) heq
          simp only [] at h3
          rw [(runRefWritePasses_spec inner hok _ _ _ 0).1] at h3
          cases h3
        · rename_i v topts2 st2 calls heq
          have h3 := congrArg (fun q => q.2.2.2) heq
          simp only [] at h3
          rw [(runRefWritePasses_spec inner hok _ _ _ 0).2] at h3
          simp only [TryOutcome.forward_calls]
          omega
  · intro u rest h
    simp [List.filter_cons, h]

/-- C8 witness: with one runnable RefCN unit and a never-raising inner
forward, the call count is one real pass plus one reference pass. -/
theorem C8_should_run_gating_witness :
    (forward_inject_UNetModel trivialInner 1 one_refcn_topts unetState1).forward_calls =
      1 + (one_refcn_topts.ref_control_list_all.filter (fun z => z.should_run)).length :=
  C8_should_run_gating.2.1 Unit trivialInner 1 one_refcn_topts unetState1
    (fun t s => ⟨(), s, rfl⟩) (by decide)

/-- C3: evaluating the intercepted forward at an input with one
adain-capable ContextRef unit shows the routing divergence: with the
ContextRef ADAIN machine state WRITE the unit lands on the ATTN write-list
(`REF_WRITE_ATTN_CONTROL_LIST`) and the ADAIN write-list stays empty, and
with state READ it lands on the ATTN read-list while the ADAIN read-list
stays empty — the `# adain` block of the source extends `write_attn_list` /
`read_attn_list` instead of the adain lists. -/
theorem C3_contextref_adain_routed_to_attn_lists :
    ((forward_inject_UNetModel trivialInner 1 ctx_adain_write_topts unetState1).topts.ref_write_adain_control_list = [] ∧
     (forward_inject_UNetModel trivialInner 1 ctx_adain_write_topts unetState1).topts.ref_write_attn_control_list = [ctxAdainUnit]) ∧
    ((forward_inject_UNetModel trivialInner 1 ctx_adain_read_topts unetState1).topts.ref_read_adain_control_list = [] ∧
     (forward_inject_UNetModel trivialInner 1 ctx_adain_read_topts unetState1).topts.ref_read_attn_control_list = [ctxAdainUnit]) ∧
    ctxAdainUnit.ref_opts.reference_type = ReferenceType.ADAIN ∧
    ctx_adain_write_topts.contextref_adain_machine_state = MachineState.WRITE ∧
    ctx_adain_read_topts.contextref_adain_machine_state = MachineState.READ :=
  ⟨⟨rfl, rfl⟩, ⟨rfl, rfl⟩, rfl, rfl, rfl⟩

/-- C4: evaluating the intercepted forward at an input with an adain-capable
ContextRef unit but no RefCN adain unit: the per-block dispatch function is
substituted for the call (the substitution guard consults both sources) but
is NOT restored on exit, because the `finally` restore guard consults only
the RefCN adain list — starting from an unsubstituted state the call ends
with the instrumented dispatch still installed. -/
theorem C4_dispatch_not_restored :
    unetState1.dispatch_substituted = false ∧
    (forward_inject_UNetModel trivialInner 1 ctx_adain_read_topts unetState1).state.dispatch_substituted = true :=
  ⟨rfl, rfl⟩

/-- C6: the ContextRef persistence scenario on the code as written: the
unit installed by handle_context_ref_setup still has is_context_ref =
False, so a ContextRef WRITE step appends to the own-origin bank (not the
context bank) and the end-of-call cleanup erases it — after the WRITE step
the whole bank state is back to empty, and the following READ step consumes
nothing (result `ok []`), contradicting persistence. -/
theorem C6_contextref_entries_do_not_persist :
    (attnWrite [context_cref] 0 5 BankStylesBasicTransformerBlock.empty).1.bank = [5] ∧
    (attnWrite [context_cref] 0 5 BankStylesBasicTransformerBlock.empty).1.c_bank = [] ∧
    (c6_step MachineState.WRITE 5 unetState1).state = unetState1 ∧
    (c6_step MachineState.READ 7 (c6_step MachineState.WRITE 5 unetState1).state).result =
      Except.ok [] :=
  ⟨rfl, rfl, rfl, rfl⟩

/-- Whenever the READ pairing loop completes without the fatal assertion,
every bank entry is associated with a read-list index whose unit's `order`
equals the entry's stored order. -/
lemma pairBank_sound (read : List ReferenceAdvanced) :
    ∀ (orders : List Int) (c : Nat) (idxs : List Nat),
      pairBank read orders c = Except.ok idxs →
      List.Forall₂ (fun idx ord =>
        ∃ h : idx < read.length, (read.get ⟨idx, h⟩).order = ord) idxs orders := by
  intro orders
  induction orders with
  | nil =>
    intro c idxs h
    simp only [pairBank] at h
    injection h with h2
    subst h2
    exact List.Forall₂.nil
  | cons o rest ih =>
    intro c idxs h
    simp only [pairBank] at h
    split at h
    · cases h
    · rename_i r hr
      split at h
      · rename_i ho
        cases hp : pairBank read rest ((findOrderFrom read o c).getD c) with
        | error e => rw [hp] at h; simp [Except.map] at h
        | ok idxs2 =>
          rw [hp] at h
          simp only [Except.map] at h
          injection h with h2
          subst h2
          obtain ⟨hlt, hget⟩ := List.getElem?_eq_some.mp hr
          refine List.Forall₂.cons ⟨hlt, ?_⟩ (ih _ _ hp)
          rw [List.get_eq_getElem, hget]
          exact ho
      · cases h

/-- C1 counterexample: a bank written by units in order [7,3], read with
the read list ordered [3,7] (attention READ path).  The first entry pairs
with the order-7 unit, but the forward-only scan cannot move back to the
order-3 unit at the earlier read-list position, so the read ends in the
fatal assertion instead of pairing every entry. -/
theorem C1_counterexample :
    attnRead [unit_order3, unit_order7] false bank_written_73 = Except.error () := rfl

/-- C1 (amended): the READ pairing loop shared by the attention and
normalization injections pairs by `order`, not by position, and never
pairs silently wrong: whenever it completes, every entry's read-list unit
has the entry's stored order (first conjunct); a lone order-7 entry against
read list [3,7] pairs with position 1 (by order); and entries arriving in
non-decreasing read-list position order ([3,7] against [3,7]) are all
consumed; but the [7,3]-written bank fails with the fatal assertion — see
the counterexample. -/
theorem C1_order_pairing :
    (∀ (read : List ReferenceAdvanced) (orders : List Int) (idxs : List Nat),
        pairBank read orders 0 = Except.ok idxs →
        List.Forall₂ (fun idx ord =>
          ∃ h : idx < read.length, (read.get ⟨idx, h⟩).order = ord) idxs orders) ∧
    pairBank [unit_order3, unit_order7] [7] 0 = Except.ok [1] ∧
    attnRead [unit_order3, unit_order7] false bank_written_37 =
      Except.ok (bank_written_37.clean_ref, [20, 10]) :=
  ⟨fun read orders idxs h => pairBank_sound read orders 0 idxs h, rfl, rfl⟩

/-- C1 witness: the pairing soundness applied to the concrete [3,7] bank
against the [3,7] read list, which pairs positions [0,1]. -/
theorem C1_order_pairing_witness :
    List.Forall₂ (fun idx ord =>
      ∃ h : idx < ([unit_order3, unit_order7] : List ReferenceAdvanced).length,
        (([unit_order3, unit_order7] : List ReferenceAdvanced).get ⟨idx, h⟩).order = ord)
      [0, 1] [3, 7] :=
  C1_order_pairing.1 [unit_order3, unit_order7] [3, 7] [0, 1] rfl

/-- The attention WRITE loop appends one entry per qualifying unit, routed
by the writer's own `is_context_ref` flag, but every appended fidelity and
order comes from the head unit `w0` (`ref_write_cns[0]` in the source). -/
lemma attnWriteLoop_spec (w0 : ReferenceAdvanced) (t n : ℚ) :
    ∀ (l : List ReferenceAdvanced) (bs : BankStylesBasicTransformerBlock) (ign : Bool),
      attnWriteLoop w0 t n l (bs, ign) =
        (⟨bs.bank ++ (attnQualifiesOwn t l).map (fun _ => n),
          bs.style_cfgs ++ (attnQualifiesOwn t l).map (fun _ => w0.ref_opts.attn_style_fidelity),
          bs.cn_idx ++ (attnQualifiesOwn t l).map (fun _ => w0.order),
          bs.c_bank ++ (attnQualifiesCtx t l).map (fun _ => n),
          bs.c_style_cfgs ++ (attnQualifiesCtx t l).map (fun _ => w0.ref_opts.attn_style_fidelity),
          bs.c_cn_idx ++ (attnQualifiesCtx t l).map (fun _ => w0.order)⟩,
         ign || !(attnQualifiesCtx t l).isEmpty) := by
  intro l
  induction l with
  | nil => intro bs ign; simp [attnWriteLoop, attnQualifiesOwn, attnQualifiesCtx]
  | cons r l ih =>
    intro bs ign
    by_cases h1 : r.ref_opts.attn_ref_weight > t
    · by_cases h2 : r.is_context_ref
      · simp [attnWriteLoop, h1, h2, attnQualifiesOwn, attnQualifiesCtx, List.filter_cons, ih,
          List.append_assoc]
      · simp [attnWriteLoop, h1, h2, attnQualifiesOwn, attnQualifiesCtx, List.filter_cons, ih,
          List.append_assoc]
    · simp [attnWriteLoop, h1, attnQualifiesOwn, attnQualifiesCtx, List.filter_cons, ih]

/-- The ADAIN WRITE loop appends one (var, mean) entry per qualifying unit,
routed by the writer's flag, and each entry carries the writing unit's own
fidelity and order. -/
lemma adainWriteLoop_spec (g var mean : ℚ) :
    ∀ (l : List ReferenceAdvanced) (bs : BankStylesTimestepEmbedSequential) (ign : Bool),
      adainWriteLoop g var mean l (bs, ign) =
        (⟨bs.var_bank ++ (adainQualifiesOwn g l).map (fun _ => var),
          bs.mean_bank ++ (adainQualifiesOwn g l).map (fun _ => mean),
          bs.style_cfgs ++ (adainQualifiesOwn g l).map (fun x => x.ref_opts.adain_style_fidelity),
          bs.cn_idx ++ (adainQualifiesOwn g l).map (fun x => x.order),
          bs.c_var_bank ++ (adainQualifiesCtx g l).map (fun _ => var),
          bs.c_mean_bank ++ (adainQualifiesCtx g l).map (fun _ => mean),
          bs.c_style_cfgs ++ (adainQualifiesCtx g l).map (fun x => x.ref_opts.adain_style_fidelity),
          bs.c_cn_idx ++ (adainQualifiesCtx g l).map (fun x => x.order)⟩,
         ign || !(adainQualifiesCtx g l).isEmpty) := by
  intro l
  induction l with
  | nil => intro bs ign; simp [adainWriteLoop, adainQualifiesOwn, adainQualifiesCtx]
  | cons r l ih =>
    intro bs ign
    by_cases h1 : r.ref_opts.adain_ref_weight > g
    · by_cases h2 : r.is_context_ref
      · simp [adainWriteLoop, h1, h2, adainQualifiesOwn, adainQualifiesCtx, List.filter_cons, ih,
          List.append_assoc]
      · simp [adainWriteLoop, h1, h2, adainQualifiesOwn, adainQualifiesCtx, List.filter_cons, ih,
          List.append_assoc]
    · simp [adainWriteLoop, h1, adainQualifiesOwn, adainQualifiesCtx, List.filter_cons, ih]

/-- C5 counterexample: two qualifying own-origin writers with orders 1 and
2 and fidelities 1 and 0; the entry appended during the second writer's
iteration carries the first writer's order (1) and fidelity (1), not the
second writer's own order 2 and fidelity 0. -/
theorem C5_counterexample :
    (attnWrite [writer_order1, writer_order2] 0 5 BankStylesBasicTransformerBlock.empty).1.cn_idx
      = [1, 1] ∧
    (attnWrite [writer_order1, writer_order2] 0 5 BankStylesBasicTransformerBlock.empty).1.style_cfgs
      = [1, 1] ∧
    writer_order2.order = 2 ∧
    writer_order2.ref_opts.attn_style_fidelity = 0 :=
  ⟨rfl, rfl, rfl, rfl⟩

/-- C5 (amended): during attention WRITE every unit in the write list whose
`attn_ref_weight` exceeds the layer threshold appends the captured tensor —
to the context sub-bank iff that writer's is_context_ref flag is set — but
the appended fidelity and order are the head unit's (`ref_write_cns[0]`),
which is the writer's own only when the write list is a singleton; the
normalization WRITE routes the same way yet appends each writing unit's own
fidelity and order. -/
theorem C5_write_attribution :
    (∀ (w0 : ReferenceAdvanced) (rest : List ReferenceAdvanced) (t n : ℚ)
        (bs : BankStylesBasicTransformerBlock),
      attnWrite (w0 :: rest) t n bs =
        (⟨bs.bank ++ (attnQualifiesOwn t (w0 :: rest)).map (fun _ => n),
          bs.style_cfgs ++
            (attnQualifiesOwn t (w0 :: rest)).map (fun _ => w0.ref_opts.attn_style_fidelity),
          bs.cn_idx ++ (attnQualifiesOwn t (w0 :: rest)).map (fun _ => w0.order),
          bs.c_bank ++ (attnQualifiesCtx t (w0 :: rest)).map (fun _ => n),
          bs.c_style_cfgs ++
            (attnQualifiesCtx t (w0 :: rest)).map (fun _ => w0.ref_opts.attn_style_fidelity),
          bs.c_cn_idx ++ (attnQualifiesCtx t (w0 :: rest)).map (fun _ => w0.order)⟩,
         !(attnQualifiesCtx t (w0 :: rest)).isEmpty)) ∧
    (∀ (cns : List ReferenceAdvanced) (g var mean : ℚ)
        (bs : BankStylesTimestepEmbedSequential),
      adainWrite cns g var mean bs =
        (⟨bs.var_bank ++ (adainQualifiesOwn g cns).map (fun _ => var),
          bs.mean_bank ++ (adainQualifiesOwn g cns).map (fun _ => mean),
          bs.style_cfgs ++ (adainQualifiesOwn g cns).map (fun x => x.ref_opts.adain_style_fidelity),
          bs.cn_idx ++ (adainQualifiesOwn g cns).map (fun x => x.order),
          bs.c_var_bank ++ (adainQualifiesCtx g cns).map (fun _ => var),
          bs.c_mean_bank ++ (adainQualifiesCtx g cns).map (fun _ => mean),
          bs.c_style_cfgs ++
            (adainQualifiesCtx g cns).map (fun x => x.ref_opts.adain_style_fidelity),
          bs.c_cn_idx ++ (adainQualifiesCtx g cns).map (fun x => x.order)⟩,
         !(adainQualifiesCtx g cns).isEmpty)) := by
  constructor
  · intro w0 rest t n bs
    rw [show attnWrite (w0 :: rest) t n bs = attnWriteLoop w0 t n (w0 :: rest) (bs, false) from rfl]
    rw [attnWriteLoop_spec]
    simp
  · intro cns g var mean bs
    rw [show adainWrite cns g var mean bs = adainWriteLoop g var mean cns (bs, false) from rfl]
    rw [adainWriteLoop_spec]
    simp

/-- Row extraction through a zipWith of rationals. -/
lemma zipWith_getD (f : ℚ → ℚ → ℚ) :
    ∀ (x y : List ℚ) (i : Nat), i < x.length → i < y.length →
      (List.zipWith f x y).getD i 0 = f (x.getD i 0) (y.getD i 0)
  | [], _, i, h, _ => absurd h (by simp)
  | _ :: _, [], i, _, h => absurd h (by simp)
  | a :: x, b :: y, 0, _, _ => rfl
  | a :: x, b :: y, Nat.succ i, h1, h2 =>
    zipWith_getD f x y i (by simpa using h1) (by simpa using h2)

/-- At fidelity zero the final lerp collapses to its second operand. -/
lemma zipWith_fid_zero : ∀ (x y : List ℚ), x.length = y.length →
    List.zipWith (fun c uc => (0:ℚ) * c + (1 - 0) * uc) x y = y := by
  intro x
  induction x with
  | nil => intro y h; simp [(List.length_eq_zero.mp h.symm)]
  | cons a x ih =>
    intro y h
    cases y with
    | nil => simp at h
    | cons b y =>
      simp only [List.zipWith]
      rw [ih y (by simpa using h)]
      norm_num

/-- The fancy-index assignment preserves row count. -/
lemma applyUcMask_length (mask : List Nat) (base repl : List ℚ) :
    (applyUcMask mask base repl).length = base.length := by
  simp [applyUcMask]

/-- Row extraction through the fancy-index assignment. -/
lemma applyUcMask_getD (mask : List Nat) (base repl : List ℚ) (i : Nat) (h : i < base.length) :
    (applyUcMask mask base repl).getD i 0 =
      if i ∈ mask then repl.getD i (base.getD i 0) else base.getD i 0 := by
  simp [applyUcMask, List.getD_eq_getElem?_getD, List.getElem?_map, List.getElem?_range, h]

/-- C9 counterexample: at fidelity 1.0 with an empty uncond index mask
(an all-conditional batch) the READ output equals the bank-blended branch
wholesale, so it is not independent of it: two different blended branches
give two different outputs. -/
theorem C9_counterexample :
    styleFidelityCombine 1 [] [0] [5] = [0] ∧
    styleFidelityCombine 1 [] [1] [5] = [1] ∧
    ([0] : List ℚ) ≠ [1] := by
  refine ⟨?_, ?_, by norm_num⟩ <;> norm_num [styleFidelityCombine]

/-- C9 (amended): at fidelity 0.0 the READ output equals the blended
branch exactly, independent of the per-sample adjusted branch (whose
substitution is skipped by the isclose guard); at fidelity 1.0 the output
equals the adjusted branch: rows in the uncond index mask come from the
per-sample pure branch, independent of the blended branch, while rows
outside the mask still equal the blended branch. -/
theorem C9_fidelity_boundary :
    (∀ (mask : List Nat) (n_uc repl : List ℚ),
      styleFidelityCombine 0 mask n_uc repl = n_uc) ∧
    (∀ (mask : List Nat) (n_uc repl : List ℚ) (i : Nat),
      i ∈ mask → i < n_uc.length → i < repl.length →
      (styleFidelityCombine 1 mask n_uc repl).getD i 0 = repl.getD i 0) ∧
    (∀ (mask : List Nat) (n_uc repl : List ℚ) (i : Nat),
      i ∉ mask → i < n_uc.length →
      (styleFidelityCombine 1 mask n_uc repl).getD i 0 = n_uc.getD i 0) := by
  have hc00 : isclose 0 0 = true := rfl
  have hc10 : isclose 1 0 = false := rfl
  refine ⟨?_, ?_, ?_⟩
  · intro mask n_uc repl
    simp only [styleFidelityCombine, hc00]
    simp only [Bool.true_eq_false, and_false, if_false]
    exact zipWith_fid_zero n_uc n_uc rfl
  · intro mask n_uc repl i hm hn hr
    have hmne : mask ≠ [] := by rintro rfl; simp at hm
    simp only [styleFidelityCombine, hc10, ne_eq, hmne, not_false_iff, and_true, if_true]
    rw [zipWith_getD _ _ _ i (by rw [applyUcMask_length]; exact hn) hn]
    rw [applyUcMask_getD mask n_uc repl i hn]
    simp only [hm, if_pos]
    rw [List.getD_eq_getElem _ _ hr, List.getD_eq_getElem _ _ hr]
    norm_num
  · intro mask n_uc repl i hm hn
    by_cases hmask : mask = []
    · subst hmask
      simp only [styleFidelityCombine, ne_eq, not_true, false_and, if_false]
      rw [zipWith_getD _ _ _ i hn hn]
      norm_num
    · simp only [styleFidelityCombine, hc10, ne_eq, hmask, not_false_iff, and_true, if_true]
      rw [zipWith_getD _ _ _ i (by rw [applyUcMask_length]; exact hn) hn]
      rw [applyUcMask_getD mask n_uc repl i hn]
      simp only [hm, if_neg]
      norm_num

/-- C9 witness: fidelity 1 with uncond mask [0] takes row 0 from the pure
branch and row 1 from the blended branch; fidelity 0 returns the blended
branch unchanged. -/
theorem C9_fidelity_boundary_witness :
    (styleFidelityCombine 1 [0] [3, 4] [9, 9]).getD 0 0 = (9:ℚ) ∧
    (styleFidelityCombine 1 [0] [3, 4] [9, 9]).getD 1 0 = (4:ℚ) ∧
    styleFidelityCombine 0 [0] [3, 4] [9, 9] = [3, 4] := by
  refine ⟨?_, ?_, C9_fidelity_boundary.1 [0] [3, 4] [9, 9]⟩
  · rw [C9_fidelity_boundary.2.1 [0] [3, 4] [9, 9] 0 (by decide) (by decide) (by decide)]
    rfl
  · rw [C9_fidelity_boundary.2.2 [0] [3, 4] [9, 9] 1 (by decide) (by decide)]
    rfl

end ControlRef
